import Mathlib

/-!
Shallow embedding of the systemiq middleware (Go): the credential manager
(`auth/auth.go`) and the forwarding gateway / connection supervisor
(`main.go`).  Time is modelled as Unix seconds (`Int`); the Go zero value
`time.Time{}` is the constant `zeroTime`.  The third-party JWT library is
modelled at its boundary: a token value carries the outcome that
`jwt.ParseUnverified` would produce for its raw string (whether parsing
succeeds, and the `exp` claim when present).  HTTP and gRPC are external,
so each operation takes the network's observable outcome as an input.
-/

namespace Middleware

/-- Unix seconds of Go's zero `time.Time{}` (January 1, year 1 UTC),
the value `parseTokenExpiry` returns alongside an error. -/
def zeroTime : Int := -62135596800

/-- A bearer token as seen through `jwt.ParseUnverified`: the raw string,
whether parsing succeeds, and the `exp` claim (Unix seconds) when the
claims map contains one.  (`auth/auth.go`: the access tokens.) -/
structure JWT where
  raw : String
  parseOk : Bool
  exp? : Option Int
deriving DecidableEq, Repr

/-- The zero-value token stored before the first login: empty string,
which `jwt.ParseUnverified` rejects. -/
def emptyJWT : JWT := { raw := "", parseOk := false, exp? := none }

/-- `parseTokenExpiry` (auth/auth.go:278-291): decode the JWT and extract
the `exp` claim; on parse failure or missing claim return the zero time
together with an error. -/
def parseTokenExpiry (t : JWT) : Int × Option String :=
  if t.parseOk then
    match t.exp? with
    | some e => (e, none)
    | none => (zeroTime, some "expiration claim exp not found")
  else (zeroTime, some "jwt parse error")

/-- `ClientToken` (auth/auth.go:68-72): one client's entry in the login
response. -/
structure ClientToken where
  client_id : Int
  access_token : JWT
  refresh_token : String
deriving DecidableEq, Repr

/-- `LoginResponse` (auth/auth.go:75-77). -/
structure LoginResponse where
  clients : List ClientToken
deriving DecidableEq, Repr

/-- `TokenResponse` (auth/auth.go:60-65): the refresh response. -/
structure TokenResponse where
  access_token : JWT
  refresh_token : String
  token_type : String
  client_id : Int
deriving DecidableEq, Repr

/-- Observable outcome of one HTTP POST (`a.client.Do` plus body decode):
either the call itself fails, or a status code is received and, when the
code is 200 OK, the body decode yields `α` or a decode error. -/
inductive HTTPResult (α : Type) where
  | netErr (msg : String)
  | reply (statusCode : Nat) (body : Except String α)
deriving Repr

/-- The mutable fields of `AuthHandler` (auth/auth.go:80-88) guarded by
`a.mu`: access token, refresh token, expiry. -/
structure AuthState where
  accessToken : JWT
  refreshToken : String
  expiry : Int
deriving DecidableEq, Repr

/-- The zero-value `AuthHandler` state before `Login` runs
(auth/auth.go:91-99). -/
def initialAuthState : AuthState :=
  { accessToken := emptyJWT, refreshToken := "", expiry := zeroTime }

/-- The `for ... range loginResponse.Clients` loop with `break`
(auth/auth.go:165-171): first entry whose `client_id` equals the
configured id. -/
def findClient (cfgID : Int) : List ClientToken → Option ClientToken
  | [] => none
  | c :: rest => if c.client_id = cfgID then some c else findClient cfgID rest

/-- `Login` (auth/auth.go:133-189).  Takes the identity endpoint's
observable outcome for this POST and the prior handler state; returns the
state after the call and the error, if any.  The final block mirrors the
single critical section: assign `accessToken` and `refreshToken`, then
parse the expiry (on parse failure the fields stay assigned and the
expiry holds the zero time, and the error is returned). -/
def Login (cfgID : Int) (resp : HTTPResult LoginResponse) (s : AuthState) :
    AuthState × Option String :=
  match resp with
  | .netErr m => (s, some m)
  | .reply code body =>
    if code ≠ 200 then (s, some "failed to authenticate")
    else
      match body with
      | .error m => (s, some m)
      | .ok lr =>
        match findClient cfgID lr.clients with
        | none => (s, some "client_id not found in login response")
        | some c =>
          let pe := parseTokenExpiry c.access_token
          ({ accessToken := c.access_token,
             refreshToken := c.refresh_token,
             expiry := pe.1 }, pe.2)

/-- `RefreshToken` (auth/auth.go:192-246).  Same shape as `Login`: the
refresh endpoint's outcome is an input; the mismatch check on
`tokenResponse.ClientID` happens before any mutation; the critical
section assigns the token fields and then parses the expiry. -/
def RefreshToken (cfgID : Int) (resp : HTTPResult TokenResponse)
    (s : AuthState) : AuthState × Option String :=
  if s.refreshToken = "" then (s, some "no refresh token available")
  else
    match resp with
    | .netErr m => (s, some m)
    | .reply code body =>
      if code ≠ 200 then (s, some "failed to refresh token")
      else
        match body with
        | .error m => (s, some m)
        | .ok tr =>
          if tr.client_id ≠ cfgID then
            (s, some "client_id mismatch in refresh response")
          else
            let pe := parseTokenExpiry tr.access_token
            ({ accessToken := tr.access_token,
               refreshToken := tr.refresh_token,
               expiry := pe.1 }, pe.2)

/-- What the identity service would answer to a refresh and to a login
POST issued now; consumed by `GetToken` when it needs them. -/
structure NetEnv where
  refreshResp : HTTPResult TokenResponse
  loginResp : HTTPResult LoginResponse
deriving Repr

/-- Observable sub-calls of one `GetToken` execution: each entry is one
invocation of `RefreshToken` or `Login` (the only network-touching
operations it can make). -/
inductive AuthEvent where
  | refreshCall
  | loginCall
deriving DecidableEq, Repr

/-- `GetToken` (auth/auth.go:249-269): if `time.Now().After(expiry)`
(strict `>`), attempt one refresh, then one login only if the refresh
errored; return the error only if both fail, else the access token now
stored.  The trace records which sub-calls ran. -/
def GetToken (cfgID : Int) (now : Int) (env : NetEnv) (s : AuthState) :
    AuthState × Except String JWT × List AuthEvent :=
  if now > s.expiry then
    let rr := RefreshToken cfgID env.refreshResp s
    match rr.2 with
    | none => (rr.1, .ok rr.1.accessToken, [.refreshCall])
    | some _ =>
      let lr := Login cfgID env.loginResp rr.1
      match lr.2 with
      | some m => (lr.1, .error m, [.refreshCall, .loginCall])
      | none => (lr.1, .ok lr.1.accessToken, [.refreshCall, .loginCall])
  else (s, .ok s.accessToken, [])

/-! ### main.go: forwarding gateway and connection supervisor -/

/-- `ObservationRequest` (protos): opaque payload fields plus the token
field the gateway overwrites. -/
structure ObservationRequest where
  data_ : String
  indicator : String
  elementId : Int
  token : Option String
  action : String
deriving DecidableEq, Repr

/-- `ObservationResponse` (protos): carries the status string. -/
structure ObservationResponse where
  status : String
deriving DecidableEq, Repr

/-- The class of a gRPC error as seen through `status.Code(err)`:
`codes.Unavailable` or anything else. -/
inductive GrpcCode where
  | unavailable
  | other (code : Nat)
deriving DecidableEq, Repr

/-- Outcome of one `client.ObserveData(ctx, req, grpc.WaitForReady(true))`
call against a given handle. -/
inductive SendResult where
  | ok (resp : ObservationResponse)
  | err (code : GrpcCode) (msg : String)
deriving DecidableEq, Repr

/-- The mutable fields of `ObserverMiddlewareServer` (main.go:105-111)
guarded by `s.mu`.  `conn` and `client` are created together by
`reconnectObserver` and swapped together under the lock, so the pair is
modelled as one handle identifier. -/
structure SupState where
  handle : Nat
deriving DecidableEq, Repr

/-- Observable side effects of one `ObserveData` execution, in order:
the unconditional `GetToken` call, each outbound send naming the handle
it was issued on, each `reconnectObserver` invocation, and each
`Close` of a previous connection. -/
inductive MwEvent where
  | getTokenCall
  | sendCall (handle : Nat)
  | reconnectCall
  | closeConn (handle : Nat)
deriving DecidableEq, Repr

/-- The remote side's observable behavior during one `ObserveData`
execution: what a send on a given handle returns, and whether
`reconnectObserver` would yield a new handle or fail. -/
structure ObserveEnv where
  send : Nat → ObservationRequest → SendResult
  reconnect : Except String Nat

/-- The forwarded request (main.go:132-138): payload copied, token field
overwritten with the freshly obtained token. -/
def forwardReq (req : ObservationRequest) (tok : String) : ObservationRequest :=
  { data_ := req.data_, indicator := req.indicator, elementId := req.elementId,
    token := some tok, action := req.action }

/-- `ObserveData` (main.go:114-172).  `GetToken` runs first,
unconditionally; its failure is returned at once.  Then the test-mode
stub, then the forward with one lazy reconnect-and-retry on
`codes.Unavailable`: if `reconnectObserver` succeeds the new handle is
swapped in, the old one closed, and the send retried exactly once on the
new handle; if it fails, nothing is swapped or closed and the original
error stands.  Any remaining error is returned; otherwise the response,
whatever its status field says. -/
def ObserveData (testMode : Bool) (tokenRes : Except String String)
    (env : ObserveEnv) (req : ObservationRequest) (s : SupState) :
    SupState × Except String ObservationResponse × List MwEvent :=
  match tokenRes with
  | .error e => (s, .error e, [.getTokenCall])
  | .ok jwtToken =>
    if testMode then (s, .ok { status := "success" }, [.getTokenCall])
    else
      let freq := forwardReq req jwtToken
      match env.send s.handle freq with
      | .ok resp => (s, .ok resp, [.getTokenCall, .sendCall s.handle])
      | .err code msg =>
        if code = .unavailable then
          match env.reconnect with
          | .error _ =>
            (s, .error msg,
             [.getTokenCall, .sendCall s.handle, .reconnectCall])
          | .ok newHandle =>
            match env.send newHandle freq with
            | .ok resp =>
              ({ handle := newHandle }, .ok resp,
               [.getTokenCall, .sendCall s.handle, .reconnectCall,
                .closeConn s.handle, .sendCall newHandle])
            | .err _ msg2 =>
              ({ handle := newHandle }, .error msg2,
               [.getTokenCall, .sendCall s.handle, .reconnectCall,
                .closeConn s.handle, .sendCall newHandle])
        else (s, .error msg, [.getTokenCall, .sendCall s.handle])

/-- Transport security mode chosen by `reconnectObserver`. -/
inductive Transport where
  | tls
  | insecure
deriving DecidableEq, Repr

/-- The dial configuration `reconnectObserver` assembles
(main.go:37-64): transport credentials, keepalive parameters (seconds),
and connect/backoff parameters (seconds). -/
structure DialConfig where
  transport : Transport
  keepaliveTime : Nat
  keepaliveTimeout : Nat
  permitWithoutStream : Bool
  backoffBaseDelay : Nat
  backoffMaxDelay : Nat
  minConnectTimeout : Nat
deriving DecidableEq, Repr

/-- Endpoint resolution and dial-option assembly of `reconnectObserver`
(main.go:31-64): default endpoint when the environment variable is
empty, TLS iff the endpoint ends in ":443", fixed keepalive and backoff
parameters. -/
def reconnectObserverConfig (envEndpoint : String) : String × DialConfig :=
  let ep := if envEndpoint = "" then "observer.systemiq.ai:443" else envEndpoint
  (ep,
   { transport := if ep.endsWith ":443" then .tls else .insecure,
     keepaliveTime := 120, keepaliveTimeout := 20,
     permitWithoutStream := false,
     backoffBaseDelay := 1, backoffMaxDelay := 30,
     minConnectTimeout := 5 })

/-! ### Helper definitions for the statements -/

/-- The handles, in order, on which sends were issued during one
`ObserveData` execution. -/
def sendEvents : List MwEvent → List Nat
  | [] => []
  | .sendCall h :: rest => h :: sendEvents rest
  | _ :: rest => sendEvents rest

/-- The expiry value `parseTokenExpiry` assigns for a token (the `exp`
claim, or the zero time when the token is unparseable). -/
def expiryVal (t : JWT) : Int := (parseTokenExpiry t).1

/-- The shape of the one mutating failure path of `Login`/`RefreshToken`:
the stored access token has no parseable expiration claim and the stored
expiry is the zero time. -/
def zeroExpiryWrite (s : AuthState) : Prop :=
  (parseTokenExpiry s.accessToken).2.isSome = true ∧ s.expiry = zeroTime

/-- States of the `AuthHandler` reachable from the zero value by any
sequence of `Login`, `RefreshToken` and `GetToken` executions (each Go
critical section under `a.mu` is one atomic step; network outcomes are
arbitrary). -/
inductive Reachable (cfgID : Int) : AuthState → Prop where
  | init : Reachable cfgID initialAuthState
  | loginStep (s : AuthState) (resp : HTTPResult LoginResponse) :
      Reachable cfgID s → Reachable cfgID (Login cfgID resp s).1
  | refreshStep (s : AuthState) (resp : HTTPResult TokenResponse) :
      Reachable cfgID s → Reachable cfgID (RefreshToken cfgID resp s).1
  | getTokenStep (s : AuthState) (now : Int) (env : NetEnv) :
      Reachable cfgID s → Reachable cfgID (GetToken cfgID now env s).1

/-! ### Concrete fixtures for witnesses and counterexamples -/

/-- A concrete inbound observation request. -/
def reqA : ObservationRequest :=
  { data_ := "d", indicator := "i", elementId := 7, token := none, action := "obs" }

/-- A concrete supervisor state holding handle 0. -/
def supS0 : SupState := { handle := 0 }

/-- A concrete application-level error response. -/
def respErr : ObservationResponse := { status := "error" }

/-- Remote behavior: every send is transport-unavailable, reconnect
yields handle 1. -/
def envTwoUnavailable : ObserveEnv :=
  { send := fun _ _ => .err .unavailable "unavailable",
    reconnect := .ok 1 }

/-- Remote behavior: every send returns the error-status response. -/
def envErrResp : ObserveEnv :=
  { send := fun _ _ => .ok respErr, reconnect := .error "unused" }

/-- Remote behavior: every send is transport-unavailable and the
reconnect itself fails. -/
def envReconnectFail : ObserveEnv :=
  { send := fun _ _ => .err .unavailable "unavailable",
    reconnect := .error "no route" }

/-! ### Theorems for the claims about main.go -/

/-- C4: when a send fails with a transport-unavailable error and the lazy
reconnect establishes handle `n`, ObserveData swaps `n` in as the active
handle, closes the previous handle exactly once, performs exactly one
reconnect, and retries the send exactly once against the new handle
(sends go to the old handle then the new one, and nothing else); if the
retry also fails, its error is returned to the caller and still only one
reconnect happened. -/
theorem observeData_unavailable_single_reconnect
    (tok msg : String) (env : ObserveEnv) (req : ObservationRequest)
    (s : SupState) (n : Nat)
    (hsend : env.send s.handle (forwardReq req tok) = .err .unavailable msg)
    (hrec : env.reconnect = .ok n) :
    (ObserveData false (.ok tok) env req s).1 = { handle := n } ∧
    sendEvents (ObserveData false (.ok tok) env req s).2.2 = [s.handle, n] ∧
    (ObserveData false (.ok tok) env req s).2.2.count MwEvent.reconnectCall = 1 ∧
    (ObserveData false (.ok tok) env req s).2.2.count
      (MwEvent.closeConn s.handle) = 1 ∧
    (∀ c m2, env.send n (forwardReq req tok) = .err c m2 →
       (ObserveData false (.ok tok) env req s).2.1 = .error m2) := by
  cases hretry : env.send n (forwardReq req tok) <;>
    simp [ObserveData, hsend, hrec, hretry, sendEvents, List.count_cons]

/-- C4 witness: both sends unavailable, reconnect yields handle 1: the
handle is swapped to 1, exactly one reconnect happened, and the retry's
error is returned. -/
theorem observeData_unavailable_single_reconnect_witness :
    (ObserveData false (.ok "t") envTwoUnavailable reqA supS0).1 = { handle := 1 } ∧
    (ObserveData false (.ok "t") envTwoUnavailable reqA supS0).2.2.count
      MwEvent.reconnectCall = 1 ∧
    (ObserveData false (.ok "t") envTwoUnavailable reqA supS0).2.1 =
      .error "unavailable" := by
  have h := observeData_unavailable_single_reconnect "t" "unavailable"
    envTwoUnavailable reqA supS0 1 rfl rfl
  exact ⟨h.1, h.2.2.1, h.2.2.2.2 .unavailable "unavailable" rfl⟩

/-- C8: a downstream response whose status field is "error" is returned
by ObserveData as a normal (non-error) result, both when the first send
succeeds and when the retry after a reconnect succeeds. -/
theorem observeData_error_status_normal_response
    (tok : String) (env : ObserveEnv) (req : ObservationRequest)
    (s : SupState) (resp : ObservationResponse)
    (_hstatus : resp.status = "error") :
    (env.send s.handle (forwardReq req tok) = .ok resp →
       (ObserveData false (.ok tok) env req s).2.1 = .ok resp) ∧
    (∀ msg n, env.send s.handle (forwardReq req tok) = .err .unavailable msg →
       env.reconnect = .ok n →
       env.send n (forwardReq req tok) = .ok resp →
       (ObserveData false (.ok tok) env req s).2.1 = .ok resp) := by
  constructor
  · intro h
    simp [ObserveData, h]
  · intro msg n h1 h2 h3
    simp [ObserveData, h1, h2, h3]

/-- C8 witness: the remote answers with status "error"; ObserveData
returns that response as a normal result. -/
theorem observeData_error_status_normal_response_witness :
    respErr.status = "error" ∧
    (ObserveData false (.ok "t") envErrResp reqA supS0).2.1 = .ok respErr :=
  ⟨rfl, (observeData_error_status_normal_response "t" envErrResp reqA supS0
          respErr rfl).1 rfl⟩

/-- C9: reconnectObserver dials with TLS exactly when the resolved
endpoint (the environment value, or the default when it is empty) ends
in ":443", and with plaintext credentials otherwise. -/
theorem reconnectObserver_transport_iff (envEndpoint : String) :
    ((reconnectObserverConfig envEndpoint).2.transport = Transport.tls
       ↔ (reconnectObserverConfig envEndpoint).1.endsWith ":443" = true) ∧
    ((reconnectObserverConfig envEndpoint).2.transport = Transport.insecure
       ↔ (reconnectObserverConfig envEndpoint).1.endsWith ":443" = false) := by
  cases hb : (if envEndpoint = "" then "observer.systemiq.ai:443"
              else envEndpoint).endsWith ":443" <;>
    simp [reconnectObserverConfig, hb]

/-- C10: when the send is transport-unavailable and the lazy reconnect
itself fails, ObserveData keeps the previous handle (nothing swapped),
closes nothing, performs exactly one reconnect attempt, issues no retry
send, and returns the original transport-unavailable error. -/
theorem observeData_reconnect_failure_preserves_handle
    (tok msg m : String) (env : ObserveEnv) (req : ObservationRequest)
    (s : SupState)
    (hsend : env.send s.handle (forwardReq req tok) = .err .unavailable msg)
    (hrec : env.reconnect = .error m) :
    (ObserveData false (.ok tok) env req s).1 = s ∧
    (ObserveData false (.ok tok) env req s).2.1 = .error msg ∧
    sendEvents (ObserveData false (.ok tok) env req s).2.2 = [s.handle] ∧
    (ObserveData false (.ok tok) env req s).2.2.count MwEvent.reconnectCall = 1 ∧
    (∀ h, MwEvent.closeConn h ∉ (ObserveData false (.ok tok) env req s).2.2) := by
  simp [ObserveData, hsend, hrec, sendEvents, List.count_cons]

/-- C10 witness: unavailable send, failed reconnect: handle 0 is kept and
the original error is returned. -/
theorem observeData_reconnect_failure_preserves_handle_witness :
    (ObserveData false (.ok "t") envReconnectFail reqA supS0).1 = supS0 ∧
    (ObserveData false (.ok "t") envReconnectFail reqA supS0).2.1 =
      .error "unavailable" := by
  have h := observeData_reconnect_failure_preserves_handle "t" "unavailable"
    "no route" envReconnectFail reqA supS0 rfl rfl
  exact ⟨h.1, h.2.1⟩

/-! ### Theorems for the claims about auth/auth.go -/

/-- The entry `findClient` returns carries the configured client id. -/
theorem findClient_client_id (cfgID : Int) (l : List ClientToken)
    (c : ClientToken) (h : findClient cfgID l = some c) :
    c.client_id = cfgID := by
  induction l with
  | nil => simp [findClient] at h
  | cons hd tl ih =>
    by_cases hc : hd.client_id = cfgID
    · simp [findClient, hc] at h
      rw [← h, hc]
    · simp [findClient, hc] at h
      exact ih h

/-- A concrete prior credential: a parseable token expiring at 1000. -/
def credBefore : AuthState :=
  { accessToken := { raw := "old", parseOk := true, exp? := some 1000 },
    refreshToken := "oldR", expiry := 1000 }

/-- Scenario B fixture: refresh response reporting client_id 3. -/
def trMismatch : TokenResponse :=
  { access_token := { raw := "new", parseOk := true, exp? := some 2000 },
    refresh_token := "newR", token_type := "bearer", client_id := 3 }

/-- C5: RefreshToken fails whenever no refresh token is held, whenever
the HTTP call fails or returns a non-200 status, and whenever the
response's client identifier differs from the configured client ID; and
on each of these paths — in particular the mismatch — the stored
credential is unchanged. -/
theorem refreshToken_failure_cases (cfgID : Int) (s : AuthState) :
    (∀ resp, s.refreshToken = "" →
       RefreshToken cfgID resp s = (s, some "no refresh token available")) ∧
    (∀ m, (RefreshToken cfgID (.netErr m) s).2.isSome = true ∧
       (RefreshToken cfgID (.netErr m) s).1 = s) ∧
    (∀ code body, code ≠ 200 →
       (RefreshToken cfgID (.reply code body) s).2.isSome = true ∧
       (RefreshToken cfgID (.reply code body) s).1 = s) ∧
    (∀ tr, tr.client_id ≠ cfgID →
       (RefreshToken cfgID (.reply 200 (.ok tr)) s).2.isSome = true ∧
       (RefreshToken cfgID (.reply 200 (.ok tr)) s).1 = s) := by
  by_cases hrt : s.refreshToken = ""
  · refine ⟨fun resp h => by simp [RefreshToken, hrt],
      fun m => by simp [RefreshToken, hrt],
      fun code body h => by simp [RefreshToken, hrt],
      fun tr h => by simp [RefreshToken, hrt]⟩
  · refine ⟨fun resp h => absurd h hrt,
      fun m => by simp [RefreshToken, hrt],
      fun code body h => by simp [RefreshToken, hrt, h],
      fun tr h => by simp [RefreshToken, hrt, h]⟩

/-- C5 witness (Scenario B): configured client id 2, refresh response
reports client_id 3: RefreshToken errors and the prior credential is
unchanged. -/
theorem refreshToken_failure_cases_witness :
    (RefreshToken 2 (.reply 200 (.ok trMismatch)) credBefore).2.isSome = true ∧
    (RefreshToken 2 (.reply 200 (.ok trMismatch)) credBefore).1 = credBefore :=
  (refreshToken_failure_cases 2 credBefore).2.2.2 trMismatch (by decide)

/-- C6: on a 200 login reply, Login selects the (first) entry whose
client_id equals the configured client ID and stores that entry's access
and refresh tokens; when no entry matches, Login errors and the stored
credential is exactly its prior state. -/
theorem login_selects_configured_client (cfgID : Int) (lr : LoginResponse)
    (s : AuthState) :
    (∀ c, findClient cfgID lr.clients = some c →
       c.client_id = cfgID ∧
       (Login cfgID (.reply 200 (.ok lr)) s).1.accessToken = c.access_token ∧
       (Login cfgID (.reply 200 (.ok lr)) s).1.refreshToken = c.refresh_token) ∧
    (findClient cfgID lr.clients = none →
       (Login cfgID (.reply 200 (.ok lr)) s).2.isSome = true ∧
       (Login cfgID (.reply 200 (.ok lr)) s).1 = s) := by
  constructor
  · intro c hc
    exact ⟨findClient_client_id cfgID lr.clients c hc, by simp [Login, hc],
      by simp [Login, hc]⟩
  · intro hn
    simp [Login, hn]

/-- Scenario A fixture: one entry for client 2 with tokens "X"/"Y". -/
def lrScenarioA : LoginResponse :=
  { clients := [{ client_id := 2,
                  access_token := { raw := "X", parseOk := true, exp? := some 2000 },
                  refresh_token := "Y" }] }

/-- C6 witness (Scenarios A and D): with configured client id 2 the
matching entry's tokens are stored; with configured client id 5 (no
matching entry) Login errors and the empty prior store is kept. -/
theorem login_selects_configured_client_witness :
    ((Login 2 (.reply 200 (.ok lrScenarioA)) initialAuthState).1.accessToken.raw
       = "X" ∧
     (Login 2 (.reply 200 (.ok lrScenarioA)) initialAuthState).1.refreshToken
       = "Y") ∧
    ((Login 5 (.reply 200 (.ok lrScenarioA)) initialAuthState).2.isSome = true ∧
     (Login 5 (.reply 200 (.ok lrScenarioA)) initialAuthState).1
       = initialAuthState) := by
  have hA := (login_selects_configured_client 2 lrScenarioA initialAuthState).1
    { client_id := 2,
      access_token := { raw := "X", parseOk := true, exp? := some 2000 },
      refresh_token := "Y" } (by decide)
  have hD := (login_selects_configured_client 5 lrScenarioA initialAuthState).2
    (by decide)
  exact ⟨⟨by rw [hA.2.1], hA.2.2⟩, hD⟩

/-- Every Login leaves the credential pair consistent: the stored expiry
is exactly what `parseTokenExpiry` yields for the stored token. -/
theorem login_keeps_pair_consistent (cfgID : Int)
    (resp : HTTPResult LoginResponse) (s : AuthState)
    (h : s.expiry = expiryVal s.accessToken) :
    (Login cfgID resp s).1.expiry =
      expiryVal (Login cfgID resp s).1.accessToken := by
  cases resp with
  | netErr m => simpa [Login] using h
  | reply code body =>
    by_cases hc : code = 200
    · cases body with
      | error m => simp [Login, hc]; exact h
      | ok lr =>
        cases hf : findClient cfgID lr.clients with
        | none => simp [Login, hc, hf]; exact h
        | some c => simp [Login, hc, hf, expiryVal]
    · simp [Login, hc]; exact h

/-- Every RefreshToken leaves the credential pair consistent. -/
theorem refreshToken_keeps_pair_consistent (cfgID : Int)
    (resp : HTTPResult TokenResponse) (s : AuthState)
    (h : s.expiry = expiryVal s.accessToken) :
    (RefreshToken cfgID resp s).1.expiry =
      expiryVal (RefreshToken cfgID resp s).1.accessToken := by
  by_cases hrt : s.refreshToken = ""
  · simpa [RefreshToken, hrt] using h
  · cases resp with
    | netErr m => simpa [RefreshToken, hrt] using h
    | reply code body =>
      by_cases hc : code = 200
      · cases body with
        | error m => simp [RefreshToken, hrt, hc]; exact h
        | ok tr =>
          by_cases hm : tr.client_id = cfgID
          · simp [RefreshToken, hrt, hc, hm, expiryVal]
          · simp [RefreshToken, hrt, hc, hm]; exact h
      · simp [RefreshToken, hrt, hc]; exact h

/-- C7: in every state reachable by any interleaving of Login,
RefreshToken and GetToken executions (each critical section under the
mutex being one atomic step), the stored expiry is exactly the expiry of
the stored access token — no observer of the credential ever sees an
access token paired with the expiry of a different token. -/
theorem credential_pair_consistent (cfgID : Int) (s : AuthState)
    (h : Reachable cfgID s) :
    s.expiry = expiryVal s.accessToken := by
  induction h with
  | init => rfl
  | loginStep s resp _ ih => exact login_keeps_pair_consistent cfgID resp s ih
  | refreshStep s resp _ ih =>
    exact refreshToken_keeps_pair_consistent cfgID resp s ih
  | getTokenStep s now env _ ih =>
    unfold GetToken
    by_cases hn : now > s.expiry
    · simp only [hn, if_true]
      cases hr : (RefreshToken cfgID env.refreshResp s).2 with
      | none =>
        simpa using refreshToken_keeps_pair_consistent cfgID env.refreshResp s ih
      | some m =>
        have h1 := refreshToken_keeps_pair_consistent cfgID env.refreshResp s ih
        have h2 := login_keeps_pair_consistent cfgID env.loginResp
          (RefreshToken cfgID env.refreshResp s).1 h1
        cases hl : (Login cfgID env.loginResp
            (RefreshToken cfgID env.refreshResp s).1).2 <;> simpa using h2
    · simpa [hn] using ih

/-- C7 witness: the invariant holds at the initial (zero-value) state,
which is reachable. -/
theorem credential_pair_consistent_witness :
    initialAuthState.expiry = expiryVal initialAuthState.accessToken :=
  credential_pair_consistent 2 initialAuthState Reachable.init

/-! ### C1: test mode and GetToken -/

/-- C1 counterexample: in test mode ObserveData does return the synthetic
success response, but the trace shows `GetToken` was invoked (it runs
before the test-mode check, main.go:120 vs main.go:127); moreover when
`GetToken` fails, test mode returns that failure instead of the synthetic
success. -/
theorem testMode_getToken_counterexample :
    (ObserveData true (.ok "t") envErrResp reqA supS0).2.1 =
      .ok { status := "success" } ∧
    MwEvent.getTokenCall ∈ (ObserveData true (.ok "t") envErrResp reqA supS0).2.2 ∧
    (ObserveData true (.error "auth down") envErrResp reqA supS0).2.1 =
      .error "auth down" :=
  ⟨rfl, by decide, rfl⟩

/-- C1 amended: when test mode is enabled, ObserveData still invokes
GetToken first; if GetToken succeeds it returns the synthetic success
response without any send, reconnect or close (the trace holds only the
GetToken call) and without touching the supervisor state; if GetToken
fails, its error is returned even in test mode. -/
theorem testMode_stub_after_getToken (tok : String) (env : ObserveEnv)
    (req : ObservationRequest) (s : SupState) :
    ObserveData true (.ok tok) env req s =
      (s, .ok { status := "success" }, [MwEvent.getTokenCall]) ∧
    (∀ e, ObserveData true (.error e) env req s =
       (s, .error e, [MwEvent.getTokenCall])) :=
  ⟨rfl, fun _ => rfl⟩

/-! ### C2: failure paths and partial updates -/

/-- A token that `jwt.ParseUnverified` accepts but whose claims lack
`exp`. -/
def badJWT : JWT := { raw := "xyz", parseOk := true, exp? := none }

/-- A 200 login reply whose matching entry carries `badJWT`. -/
def lrBad : HTTPResult LoginResponse :=
  .reply 200 (.ok { clients :=
    [{ client_id := 2, access_token := badJWT, refresh_token := "newR" }] })

/-- C2 counterexample: a login HTTP success whose access token has no
parseable expiration claim makes Login return an error while the stored
credential has changed (the token fields were assigned before the expiry
parse failed). -/
theorem login_error_mutates_counterexample :
    (Login 2 lrBad credBefore).2.isSome = true ∧
    ¬ (Login 2 lrBad credBefore).1 = credBefore := by
  decide

/-- When `parseTokenExpiry` reports an error its time component is the
zero time. -/
theorem parseTokenExpiry_error_zero (t : JWT)
    (h : (parseTokenExpiry t).2.isSome = true) :
    (parseTokenExpiry t).1 = zeroTime := by
  unfold parseTokenExpiry at h ⊢
  by_cases hp : t.parseOk
  · cases he : t.exp? with
    | none => simp [hp, he]
    | some e => simp [hp, he] at h
  · simp [hp]

/-- A failed Login leaves the state unchanged, except for the
unparseable-expiry write. -/
theorem login_error_state (cfgID : Int) (resp : HTTPResult LoginResponse)
    (s : AuthState) (h : (Login cfgID resp s).2.isSome = true) :
    (Login cfgID resp s).1 = s ∨ zeroExpiryWrite (Login cfgID resp s).1 := by
  cases resp with
  | netErr m => exact Or.inl rfl
  | reply code body =>
    by_cases hc : code = 200
    · cases body with
      | error m => simp [Login, hc]
      | ok lr =>
        cases hf : findClient cfgID lr.clients with
        | none => simp [Login, hc, hf]
        | some c =>
          subst hc
          have hred : Login cfgID (.reply 200 (.ok lr)) s =
              ({ accessToken := c.access_token,
                 refreshToken := c.refresh_token,
                 expiry := (parseTokenExpiry c.access_token).1 },
               (parseTokenExpiry c.access_token).2) := by
            simp [Login, hf]
          rw [hred] at h ⊢
          exact Or.inr ⟨h, parseTokenExpiry_error_zero c.access_token h⟩
    · simp [Login, hc]

/-- A failed RefreshToken leaves the state unchanged, except for the
unparseable-expiry write. -/
theorem refreshToken_error_state (cfgID : Int)
    (resp : HTTPResult TokenResponse) (s : AuthState)
    (h : (RefreshToken cfgID resp s).2.isSome = true) :
    (RefreshToken cfgID resp s).1 = s ∨
      zeroExpiryWrite (RefreshToken cfgID resp s).1 := by
  by_cases hrt : s.refreshToken = ""
  · simp [RefreshToken, hrt]
  · cases resp with
    | netErr m => simp [RefreshToken, hrt]
    | reply code body =>
      by_cases hc : code = 200
      · cases body with
        | error m => simp [RefreshToken, hrt, hc]
        | ok tr =>
          by_cases hm : tr.client_id = cfgID
          · subst hc
            have hred : RefreshToken cfgID (.reply 200 (.ok tr)) s =
                ({ accessToken := tr.access_token,
                   refreshToken := tr.refresh_token,
                   expiry := (parseTokenExpiry tr.access_token).1 },
                 (parseTokenExpiry tr.access_token).2) := by
              simp [RefreshToken, hrt, hm]
            rw [hred] at h ⊢
            exact Or.inr ⟨h, parseTokenExpiry_error_zero tr.access_token h⟩
          · simp [RefreshToken, hrt, hc, hm]
      · simp [RefreshToken, hrt, hc]

/-- C2 amended: whenever Login, RefreshToken or GetToken returns an
error, the stored credential is its prior state — except on the one
path where a login/refresh HTTP success carries an access token with no
parseable expiration claim: there the token fields are replaced and the
expiry is set to the zero time (`zeroExpiryWrite`). -/
theorem auth_failure_no_partial_update_except_unparsed (cfgID : Int) :
    (∀ resp s, (Login cfgID resp s).2.isSome = true →
       (Login cfgID resp s).1 = s ∨ zeroExpiryWrite (Login cfgID resp s).1) ∧
    (∀ resp s, (RefreshToken cfgID resp s).2.isSome = true →
       (RefreshToken cfgID resp s).1 = s ∨
         zeroExpiryWrite (RefreshToken cfgID resp s).1) ∧
    (∀ now env s m, (GetToken cfgID now env s).2.1 = .error m →
       (GetToken cfgID now env s).1 = s ∨
         zeroExpiryWrite (GetToken cfgID now env s).1) := by
  refine ⟨fun resp s h => login_error_state cfgID resp s h,
    fun resp s h => refreshToken_error_state cfgID resp s h,
    fun now env s m h => ?_⟩
  unfold GetToken at h ⊢
  by_cases hn : now > s.expiry
  · simp only [hn, if_true] at h ⊢
    cases hr : (RefreshToken cfgID env.refreshResp s).2 with
    | none => simp [hr] at h
    | some m1 =>
      simp only [hr] at h ⊢
      cases hl : (Login cfgID env.loginResp
          (RefreshToken cfgID env.refreshResp s).1).2 with
      | none => simp [hl] at h
      | some m2 =>
        simp only [hl]
        have h1 := refreshToken_error_state cfgID env.refreshResp s
          (by rw [hr]; rfl)
        have h2 := login_error_state cfgID env.loginResp
          (RefreshToken cfgID env.refreshResp s).1 (by rw [hl]; rfl)
        rcases h2 with h2 | h2
        · rw [h2]
          rcases h1 with h1 | h1
          · exact Or.inl h1
          · exact Or.inr h1
        · exact Or.inr h2
  · simp [hn] at h

/-- C2 witness: a refresh whose HTTP call fails leaves the prior
credential untouched. -/
theorem auth_failure_no_partial_update_witness :
    (RefreshToken 2 (.netErr "down") credBefore).1 = credBefore ∨
      zeroExpiryWrite (RefreshToken 2 (.netErr "down") credBefore).1 :=
  (auth_failure_no_partial_update_except_unparsed 2).2.1 (.netErr "down")
    credBefore rfl

/-! ### C3: the expiry comparison is strict -/

/-- A credential whose token expires exactly at time 100. -/
def credAtBoundary : AuthState :=
  { accessToken := { raw := "tk", parseOk := true, exp? := some 100 },
    refreshToken := "r", expiry := 100 }

/-- The identity service is unreachable for both refresh and login. -/
def envDown : NetEnv :=
  { refreshResp := .netErr "down", loginResp := .netErr "down" }

/-- C3 counterexample: at `t = E` (time 100, expiry 100), so `t ≥ E`,
GetToken performs no refresh attempt at all — the trace is empty and the
cached token is returned — because the code's check
`time.Now().After(expiry)` is strict. -/
theorem getToken_at_expiry_counterexample :
    (100 : Int) ≥ credAtBoundary.expiry ∧
    (GetToken 2 100 envDown credAtBoundary).2.2 = [] ∧
    ¬ (GetToken 2 100 envDown credAtBoundary).2.2.count
        AuthEvent.refreshCall = 1 := by
  decide

/-- C3 amended: GetToken called at `t ≤ E` returns the cached access
token with no network call (the sub-call trace is empty and the state is
untouched); at `t > E` it performs exactly one refresh attempt, and
exactly one login attempt only if the refresh failed (no login attempt
when the refresh succeeds). -/
theorem getToken_expiry_boundary (cfgID now : Int) (env : NetEnv)
    (s : AuthState) :
    (now ≤ s.expiry →
       GetToken cfgID now env s = (s, .ok s.accessToken, [])) ∧
    (now > s.expiry →
       (GetToken cfgID now env s).2.2.count AuthEvent.refreshCall = 1 ∧
       ((RefreshToken cfgID env.refreshResp s).2 = none →
          (GetToken cfgID now env s).2.2.count AuthEvent.loginCall = 0) ∧
       (∀ m, (RefreshToken cfgID env.refreshResp s).2 = some m →
          (GetToken cfgID now env s).2.2.count AuthEvent.loginCall = 1)) := by
  constructor
  · intro h
    have hn : ¬ now > s.expiry := not_lt.mpr h
    simp [GetToken, hn]
  · intro hn
    unfold GetToken
    simp only [hn, if_true]
    cases hr : (RefreshToken cfgID env.refreshResp s).2 with
    | none =>
      exact ⟨rfl, fun _ => rfl, fun m hm => absurd hm (by simp)⟩
    | some m1 =>
      cases hl : (Login cfgID env.loginResp
          (RefreshToken cfgID env.refreshResp s).1).2 with
      | none =>
        exact ⟨rfl, fun h0 => absurd h0 (by simp), fun m hm => rfl⟩
      | some m2 =>
        exact ⟨rfl, fun h0 => absurd h0 (by simp), fun m hm => rfl⟩

/-- C3 witness: at `t = 99 < 100 = E` the cached token comes back with an
empty trace; at `t = 101 > E` with the identity service down there is
exactly one refresh attempt and exactly one login attempt. -/
theorem getToken_expiry_boundary_witness :
    GetToken 2 99 envDown credAtBoundary =
      (credAtBoundary, .ok credAtBoundary.accessToken, []) ∧
    (GetToken 2 101 envDown credAtBoundary).2.2.count
      AuthEvent.refreshCall = 1 ∧
    (GetToken 2 101 envDown credAtBoundary).2.2.count
      AuthEvent.loginCall = 1 :=
  ⟨(getToken_expiry_boundary 2 99 envDown credAtBoundary).1 (by decide),
   ((getToken_expiry_boundary 2 101 envDown credAtBoundary).2 (by decide)).1,
   ((getToken_expiry_boundary 2 101 envDown credAtBoundary).2 (by decide)).2.2
     "down" (by decide)⟩

end Middleware
